import Mathlib

/-!
Verification development for the tubetto stream-resolution and proxy core.

The definitions below are a shallow embedding of the Python source:

* `tubetto/tubetto/services.py` — TTL cache, format selectors, manifest
  resolver, batch synchronization jobs;
* `tubetto/videos/views.py` — HLS manifest rewriter and streaming-proxy views;
* `tubetto/music/views.py` — audio streaming proxy view.

Python dynamic values are embedded with `Option` types (`none` = Python
`None`), Python truthiness is made explicit (`truthyS`, `truthyZ`), network
and database effects are passed as explicit function arguments, and the
wall clock is an explicit integer argument (only its ordering matters).
-/

namespace Tubetto

/-!
Python strings are sequences of code points; the primitives below therefore
work on `String.data : List Char` by structural recursion (the byte-indexed
loops of core `String` do not matter to the semantics modelled here).
-/

/-- Boolean prefix test on code-point lists. -/
def swB : List Char → List Char → Bool
  | [], _ => true
  | _ :: _, [] => false
  | c :: cs, d :: ds => c == d && swB cs ds

/-- Python `s.startswith(p)` (on code points). -/
def pyStartsWith (s p : String) : Bool := swB p.data s.data

/-- Substring test on code-point lists. -/
def substrL (needle : List Char) : List Char → Bool
  | [] => needle.isEmpty
  | c :: rest => swB needle (c :: rest) || substrL needle rest

/-- Python substring test `needle in hay`. -/
def substrB (needle hay : String) : Bool := substrL needle.data hay.data

/-- Python `s.endswith(p)`. -/
def pyEndsWith (s p : String) : Bool := swB p.data.reverse s.data.reverse

/-- The characters Python `str.strip()` removes. -/
def pyWs (c : Char) : Bool :=
  c.toNat = 32 || c.toNat = 9 || c.toNat = 10 || c.toNat = 13 ||
    c.toNat = 11 || c.toNat = 12

/-- Python `s.strip()`. -/
def pyStrip (s : String) : String :=
  ⟨((s.data.dropWhile pyWs).reverse.dropWhile pyWs).reverse⟩

/-- Python `s.lower()` (ASCII case mapping suffices here). -/
def pyToLower (s : String) : String := ⟨s.data.map Char.toLower⟩

/-- Split at the first occurrence of `sep`: `some (before, after)`, or
`none` when `sep` does not occur (Python `s.split(sep, 1)` yielding one or
two pieces). -/
def splitFirst (sep : List Char) : List Char → Option (List Char × List Char)
  | [] => none
  | c :: rest =>
    if swB sep (c :: rest) then some ([], (c :: rest).drop sep.length)
    else
      match splitFirst sep rest with
      | some (pre, post) => some (c :: pre, post)
      | none => none

/-- Split on a single separator character (Python `s.split(sep)`). -/
def splitChar (sep : Char) : List Char → List (List Char)
  | [] => [[]]
  | c :: rest =>
    if c = sep then [] :: splitChar sep rest
    else
      match splitChar sep rest with
      | g :: gs => (c :: g) :: gs
      | [] => [[c]]

/-- Replace every non-overlapping occurrence of the non-empty pattern
`pat`, left to right, with enough fuel to traverse the input. -/
def replaceFuel (pat rep : List Char) : ℕ → List Char → List Char
  | 0, l => l
  | _ + 1, [] => []
  | fuel + 1, c :: rest =>
    if swB pat (c :: rest) then
      rep ++ replaceFuel pat rep fuel (rest.drop (pat.length - 1))
    else c :: replaceFuel pat rep fuel rest

/-- Python `s.replace(pat, rep)` for a non-empty pattern. -/
def pyReplace (s pat rep : String) : String :=
  ⟨replaceFuel pat.data rep.data s.data.length s.data⟩

/-- Numeric value of a digit string. -/
def digitsToNat (l : List Char) : ℕ :=
  l.foldl (fun acc c => acc * 10 + (c.toNat - 48)) 0

/-- Python truthiness of an optional string: `None` and `""` are falsy. -/
def truthyS : Option String → Bool
  | some s => s ≠ ""
  | none => false

/-- Python truthiness of an optional integer: `None` and `0` are falsy. -/
def truthyZ : Option Int → Bool
  | some z => z ≠ 0
  | none => false

/-- Python `a or b` where `a` is an optional string and `b` a string:
yields the value of `a` when truthy, otherwise `b`. -/
def pyOrS (a : Option String) (b : String) : String :=
  match a with
  | some s => if s = "" then b else s
  | none => b

/-! ## TTL cache (`services.py` lines 48-79)

The module-level dict `_CACHE = \x7bvideo_id: (expires_epoch, data)\x7d` is
embedded as an association list; `time.time()` is an explicit integer argument. -/

/-- The `_CACHE` mapping: key to (expiry epoch, payload). -/
abbrev Cache (α : Type) : Type := List (String × ℤ × α)

/-- Dict lookup `_CACHE.get(k)`. -/
def cacheLookup (c : Cache α) (k : String) : Option (ℤ × α) :=
  (c.find? (fun e => e.1 == k)).map (fun e => e.2)

/-- `_cache_get` (services.py:51-64): return the payload if the entry exists
and `item[0] > time.time()`, else `None`.  The embedded tuple is always
truthy, so `if item` is just the presence check. -/
def _cache_get (c : Cache α) (now : ℤ) (k : String) : Option α :=
  match cacheLookup c k with
  | some item => if item.1 > now then some item.2 else none
  | none => none

/-- `_cache_get` together with the cache state after the call.  The source
body only reads `_CACHE`; it contains no deletion or other mutation, so the
state after the call is the state before it. -/
def _cache_get_state (c : Cache α) (now : ℤ) (k : String) : Option α × Cache α :=
  (_cache_get c now k, c)

/-- `_cache_set` (services.py:67-79): `_CACHE[k] = (time.time() + ttl, data)`.
Dict assignment overwrites the key; embedded as cons plus removal of the
old binding. -/
def _cache_set (c : Cache α) (now : ℤ) (k : String) (v : α) (ttl : ℤ) : Cache α :=
  (k, now + ttl, v) :: c.filter (fun e => e.1 != k)

/-! ## Format descriptors and selectors (`services.py` lines 118-293) -/

/-- One yt-dlp format dict, restricted to the keys the selectors read.
Absent dict keys and `None` values both embed to `none` (the source only
ever reads them through `.get`, which identifies the two). -/
structure Format where
  vcodec : Option String := none
  acodec : Option String := none
  protocol : Option String := none
  url : Option String := none
  ext : Option String := none
  manifest_url : Option String := none
  tbr : Option Int := none
  abr : Option Int := none
deriving DecidableEq, Repr

/-- Result dict of `select_best_audio`: keys `url`, `ext`, `acodec`. -/
structure AudioRes where
  url : Option String
  ext : Option String
  acodec : Option String
deriving DecidableEq, Repr

/-- Result dict of `_select_progressive` / `select_manifest`: the source
returns dicts with key `type` plus either `url`/`ext` (progressive) or
`manifest_url` (hls/dash); absent keys embed to `none`. -/
structure SelResult where
  stype : String
  url : Option String := none
  ext : Option String := none
  manifest_url : Option String := none
deriving DecidableEq, Repr

/-- Python stable insertion for a descending sort: insert `x` after every
element `y` with `le x y` (ties keep the earlier element first). -/
def insertDescBy (le : α → α → Bool) (x : α) : List α → List α
  | [] => [x]
  | y :: ys => if le x y then y :: insertDescBy le x ys else x :: y :: ys

/-- Embedding of Python `sorted(l, key=k, reverse=True)`: a stable sort
placing larger keys first; `le a b` decides `k a ≤ k b`. -/
def sortDescBy (le : α → α → Bool) (l : List α) : List α :=
  l.foldl (fun acc x => insertDescBy le x acc) []

/-- First element of `x :: xs` attaining the maximal key (Python stable
reverse sort puts exactly this element first). -/
def firstMaxBy (le : α → α → Bool) (x : α) (xs : List α) : α :=
  xs.foldl (fun c y => if le y c then c else y) x

/-- Filter predicate of `select_best_audio` (services.py:133):
`vcodec in (None, "none")` and `acodec` truthy and not `"none"` and `url`
truthy. -/
def isAudioOnly (f : Format) : Bool :=
  (f.vcodec == none || f.vcodec == some "none") &&
    truthyS f.acodec && f.acodec != some "none" && truthyS f.url

/-- `score` (services.py:139-142): `(is_m4a, tbr or abr or 0)` with
`is_m4a = 1` for extensions m4a/mp4/mp4a. -/
def audioScore (f : Format) : ℕ × Int :=
  let e := pyToLower (f.ext.getD "")
  let isM4a : ℕ := if e = "m4a" ∨ e = "mp4" ∨ e = "mp4a" then 1 else 0
  let b : Int := if truthyZ f.tbr then f.tbr.getD 0
    else if truthyZ f.abr then f.abr.getD 0 else 0
  (isM4a, b)

/-- Lexicographic ≤ on (ℕ, Int) score pairs, as Python compares tuples. -/
def lexLeNZ (a b : ℕ × Int) : Bool :=
  if a.1 < b.1 then true else if a.1 = b.1 then decide (a.2 ≤ b.2) else false

/-- Key comparison for the `select_best_audio` sort. -/
def audioLe (f g : Format) : Bool := lexLeNZ (audioScore f) (audioScore g)

/-- `select_best_audio` (services.py:118-145). -/
def select_best_audio (formats : List Format) : Option AudioRes :=
  let audioOnly := formats.filter isAudioOnly
  if audioOnly.isEmpty then none
  else
    ((sortDescBy audioLe audioOnly).head?).map
      (fun best => { url := best.url, ext := best.ext, acodec := best.acodec })

/-- Filter predicate of `_select_progressive` (services.py:250-251): both
codecs truthy and not `"none"`, protocol http(s), url truthy. -/
def isProgressive (f : Format) : Bool :=
  truthyS f.vcodec && f.vcodec != some "none" &&
    truthyS f.acodec && f.acodec != some "none" &&
    (f.protocol == some "https" || f.protocol == some "http") && truthyS f.url

/-- Sort key of `_select_progressive` (services.py:256):
`(ext == "mp4", tbr or 0)`. -/
def progScore (f : Format) : ℕ × Int :=
  (if f.ext == some "mp4" then 1 else 0,
   if truthyZ f.tbr then f.tbr.getD 0 else 0)

/-- Key comparison for the `_select_progressive` sort. -/
def progLe (f g : Format) : Bool := lexLeNZ (progScore f) (progScore g)

/-- `_select_progressive` (services.py:235-258). -/
def _select_progressive (formats : List Format) : Option SelResult :=
  let progressive := formats.filter isProgressive
  if progressive.isEmpty then none
  else
    ((sortDescBy progLe progressive).head?).map
      (fun chosen => { stype := "progressive", url := chosen.url, ext := chosen.ext })

/-- HLS-tier filter of `select_manifest` (services.py:283):
`protocol == "m3u8" or "m3u8" in (url or "")`. -/
def isHlsFormat (f : Format) : Bool :=
  f.protocol == some "m3u8" || substrB "m3u8" (f.url.getD "")

/-- DASH-tier filter of `select_manifest` (services.py:288):
`manifest_url` truthy `or (url or "").endswith(".mpd")`. -/
def isDashFormat (f : Format) : Bool :=
  truthyS f.manifest_url || pyEndsWith (f.url.getD "") ".mpd"

/-- ≤ on the HLS sort key `tbr or 0` (services.py:285). -/
def hlsLe (f g : Format) : Bool :=
  decide ((if truthyZ f.tbr then f.tbr.getD 0 else 0) ≤
    (if truthyZ g.tbr then g.tbr.getD 0 else 0))

/-- yt-dlp info dict, restricted to the keys the resolver and the batch
jobs read. -/
structure Info where
  formats : List Format := []
  title : Option String := none
  thumbnail : Option String := none
  duration : Option Int := none
  channel : Option String := none
  upload_date : Option String := none
  artist : Option String := none
  uploader : Option String := none
  album : Option String := none
  description : Option String := none
  channel_id : Option String := none
  channel_url : Option String := none
  uploader_id : Option String := none
deriving DecidableEq, Repr

/-- `select_manifest` (services.py:261-293).  The `RuntimeError` raised when
every tier is empty is embedded as `Except.error`; `sorted(hls, ...)[0]` on
a non-empty list is `(sortDescBy ...).headD default`. -/
def select_manifest (data : Info) : Except String SelResult :=
  let formats := data.formats
  match _select_progressive formats with
  | some prog => .ok prog
  | none =>
    let hls := formats.filter isHlsFormat
    if !hls.isEmpty then
      let chosen := (sortDescBy hlsLe hls).headD {}
      .ok { stype := "hls", manifest_url := chosen.url }
    else
      let dash := formats.filter isDashFormat
      if !dash.isEmpty then
        let chosen := dash.headD {}
        let mu := if truthyS chosen.manifest_url then chosen.manifest_url else chosen.url
        .ok { stype := "dash", manifest_url := mu }
      else .error "Nessun manifest disponibile (progressive/HLS/DASH)"

/-- The dict returned by `resolve_stream_manifest` (services.py:313-337).
The outer `Option` on `stream_url` / `ext` / `manifest_url` records whether
the branch added the key to the dict at all; the inner value is the
(possibly `None`) Python value stored under it. -/
structure StreamDescriptor where
  video_id : String
  title : Option String := none
  thumbnail : Option String := none
  duration : Option Int := none
  channel : String := ""
  upload_date : Option String := none
  stream_type : String := ""
  stream_url : Option (Option String) := none
  ext : Option (Option String) := none
  manifest_url : Option (Option String) := none
deriving DecidableEq, Repr

/-- `resolve_stream_manifest` (services.py:296-337), parameterized by the
already-resolved info dict (`resolve_video_info` is network + cache). -/
def resolve_stream_manifest (video_id : String) (info : Info) :
    Except String StreamDescriptor := do
  let sel ← select_manifest info
  let base : StreamDescriptor := {
    video_id := video_id
    title := info.title
    thumbnail := info.thumbnail
    duration := info.duration
    channel := info.channel.getD ""
    upload_date := info.upload_date }
  if sel.stype = "progressive" then
    pure { base with stream_type := "progressive", stream_url := some sel.url, ext := some sel.ext }
  else if sel.stype = "hls" then
    pure { base with stream_type := "hls", manifest_url := some sel.manifest_url }
  else
    pure { base with stream_type := "dash", manifest_url := some sel.manifest_url }

/-! ## URL helpers (Python stdlib `urllib.parse`, as used by the views)

`urljoin`, `urlencode` and `str.splitlines` are standard-library functions;
they are modelled here for the inputs the views produce: absolute
`http(s)` base URLs and newline-separated manifest text.  Dot-segment
normalization of relative references and non-`\n` line terminators are not
modelled. -/

/-- Uppercase hexadecimal digit for a value below 16. -/
def hexDigit (n : ℕ) : Char :=
  if n < 10 then Char.ofNat (48 + n) else Char.ofNat (55 + n)

/-- UTF-8 bytes of one code point (as `urlencode` encodes `str` values). -/
def utf8Bytes (c : Char) : List ℕ :=
  let n := c.toNat
  if n < 128 then [n]
  else if n < 2048 then [192 + n / 64, 128 + n % 64]
  else if n < 65536 then [224 + n / 4096, 128 + n / 64 % 64, 128 + n % 64]
  else [240 + n / 262144, 128 + n / 4096 % 64, 128 + n / 64 % 64, 128 + n % 64]

/-- One byte under `urllib.parse.quote_plus` with empty safe set: letters,
digits and `_.-~` kept, space becomes `+`, everything else `%XX`. -/
def quotePlusByte (b : ℕ) : String :=
  if (65 ≤ b ∧ b ≤ 90) ∨ (97 ≤ b ∧ b ≤ 122) ∨ (48 ≤ b ∧ b ≤ 57) ∨
      b = 95 ∨ b = 46 ∨ b = 45 ∨ b = 126 then
    String.singleton (Char.ofNat b)
  else if b = 32 then "+"
  else String.mk ['%', hexDigit (b / 16 % 16), hexDigit (b % 16)]

/-- `urllib.parse.quote_plus` on a string. -/
def quotePlus (s : String) : String :=
  String.join (s.data.map (fun c => String.join ((utf8Bytes c).map quotePlusByte)))

/-- `urlencode(\x7b"u": url\x7d)`. -/
def urlencodeU (url : String) : String := "u=" ++ quotePlus url

/-- Does the reference start with a URI scheme (`scheme:`)? -/
def hasScheme (r : String) : Bool :=
  let pre := r.data.takeWhile (fun c => c ≠ ':')
  decide (pre.length < r.data.length) && !pre.isEmpty &&
    (pre.headD 'a').isAlpha &&
    pre.all (fun c => c.isAlphanum || c = '+' || c = '-' || c = '.')

/-- `scheme://authority` part of an absolute URL (up to the first `/` after
`://`). -/
def originOf (u : String) : String :=
  match splitFirst [':', '/', '/'] u.data with
  | some (sch, rest) => ⟨sch⟩ ++ "://" ++ ⟨rest.takeWhile (fun c => c ≠ '/')⟩
  | none => ⟨u.data.takeWhile (fun c => c ≠ '/')⟩

/-- Scheme name of an absolute URL. -/
def schemeOf (u : String) : String := ⟨u.data.takeWhile (fun c => c ≠ ':')⟩

/-- Python `url.rsplit` at the last slash, keeping the slash — the directory base the views compute
from a manifest URL (views.py:267, 287). -/
def dirSlash (u : String) : String :=
  if u.data.contains '/' then ⟨(u.data.reverse.dropWhile (fun c => c ≠ '/')).reverse⟩
  else u ++ "/"

/-- `urllib.parse.urljoin base rel` for the cases arising here: empty
reference, absolute reference, network-path (`//…`), root-relative (`/…`)
and plain relative references (no dot-segment normalization). -/
def urljoin (base rel : String) : String :=
  if rel = "" then base
  else if hasScheme rel then rel
  else if pyStartsWith rel "//" then schemeOf base ++ ":" ++ rel
  else if pyStartsWith rel "/" then originOf base ++ rel
  else dirSlash base ++ rel

/-- Python `str.splitlines()` for `\n`-separated text: like splitting on
`\n` but without a trailing empty piece for a terminal newline. -/
def pySplitlines (s : String) : List String :=
  if s = "" then []
  else
    let parts := (splitChar '\n' s.data).map (fun l => String.mk l)
    if parts.getLast? = some "" then parts.dropLast else parts

/-! ## HLS manifest rewriter (`videos/views.py` lines 240-317) -/

/-- The segment-proxy URL emitted for a resolved upstream URL
(views.py:313): `f"/stream/\x7bvideo_id\x7d/seg?" + urlencode(...)`. -/
def segProxy (videoId upstreamUrl : String) : String :=
  "/stream/" ++ videoId ++ "/seg?" ++ urlencodeU upstreamUrl

/-- The key-proxy URL emitted for a resolved upstream key URL
(views.py:300). -/
def keyProxy (videoId upstreamKey : String) : String :=
  "/stream/" ++ videoId ++ "/key?" ++ urlencodeU upstreamKey

/-- Rewrite of one stripped `#EXT-X-KEY` line containing `URI=`
(views.py:293-305).  `split with limit 1 on the URI marker` keeps everything after the first
marker; a quoted URI is the piece between the first two quotes, an unquoted one
the piece before the first comma; the replacement is `str.replace` on the stripped line.
The `except` clause of the source has no counterpart: every operation in
the branch is total in this embedding. -/
def rewriteKeyLine (videoId base s : String) : String :=
  match splitFirst "URI=".data s.data with
  | none => s
  | some (_, post) =>
    let rest : String := ⟨post⟩
    let uriPart : String :=
      if pyStartsWith rest "\"" then ⟨(rest.data.drop 1).takeWhile (fun c => c ≠ '"')⟩
      else ⟨rest.data.takeWhile (fun c => c ≠ ',')⟩
    let upstreamKey := urljoin base uriPart
    let proxied := keyProxy videoId upstreamKey
    if rest.data.contains '"' then
      pyReplace s ("URI=\"" ++ uriPart ++ "\"") ("URI=\"" ++ proxied ++ "\"")
    else
      pyReplace s ("URI=" ++ uriPart) ("URI=" ++ proxied)

/-- One iteration of the rewrite loop (views.py:290-314). -/
def rewriteLine (videoId base line : String) : String :=
  let s := pyStrip line
  if pyStartsWith s "#EXT-X-KEY" && substrB "URI=" s then rewriteKeyLine videoId base s
  else if pyStartsWith s "#" || s == "" then line
  else segProxy videoId (urljoin base s)

/-- The rewrite loop: one output line appended per input line, in order. -/
def rewriteLines (videoId base : String) : List String → List String
  | [] => []
  | l :: ls => rewriteLine videoId base l :: rewriteLines videoId base ls

/-- The line-rewrite phase of `hls_manifest` (views.py:289-316):
split, rewrite each line, join with `\n`. -/
def hlsRewrite (videoId base text : String) : String :=
  String.intercalate "\n" (rewriteLines videoId base (pySplitlines text))

/-- Inner loop of the master-resolution scan (views.py:275-280): first
following line whose stripped form is non-blank and not a directive. -/
def firstUriLine : List String → Option String
  | [] => none
  | l :: rest =>
    let u := pyStrip l
    if u = "" || pyStartsWith u "#" then firstUriLine rest else some u

/-- Master-resolution scan (views.py:272-282): at the first line whose
stripped form starts with `#EXT-X-STREAM-INF`, resolve the next URI line
against `base`; if that directive has no following URI line, the outer
loop keeps scanning. -/
def findVariant (base : String) : List String → Option String
  | [] => none
  | l :: rest =>
    if pyStartsWith (pyStrip l) "#EXT-X-STREAM-INF" then
      match firstUriLine rest with
      | some u => some (urljoin base u)
      | none => findVariant base rest
    else findVariant base rest

/-- The manifest-processing core of `hls_manifest` (views.py:264-317),
parameterized by the HTTP fetch `fetch : url → body` (the view uses
`requests.get(url, timeout=8).text`; fetch errors abort the view and are
outside this embedding).  Database lookup, authorization and the
HLS-required check (views.py:258-263) precede this body in the source. -/
def hlsManifestBody (fetch : String → String) (videoId manifestUrl : String) : String :=
  let text := fetch manifestUrl
  let base := dirSlash manifestUrl
  if substrB "#EXT-X-STREAM-INF" text then
    match findVariant base (pySplitlines text) with
    | some variantUrl => hlsRewrite videoId (dirSlash variantUrl) (fetch variantUrl)
    | none => hlsRewrite videoId base text
  else hlsRewrite videoId base text

/-! ## Streaming-proxy views (`videos/views.py`, `music/views.py`)

Each view is embedded as a pure function of its request data, the
already-resolved service results, and an HTTP oracle `http : UpReq → UpResp`
standing for `requests.get(url, headers=..., stream=True, timeout=8)`.
Alongside the view result, each function returns the list of upstream
requests it issued. -/

/-- An upstream GET: target URL and the `Range` header sent, if any
(the views forward no other request header). -/
structure UpReq where
  url : String
  range : Option String := none
deriving DecidableEq, Repr

/-- An upstream response: status code and response headers. -/
structure UpResp where
  status : ℕ := 200
  headers : List (String × String) := []
deriving DecidableEq, Repr

/-- `headers.get(k)` for the embedded header mapping. -/
def headerGet (hs : List (String × String)) (k : String) : Option String :=
  (hs.find? (fun p => p.1 == k)).map (fun p => p.2)

/-- The header-copy loop `for h in [...]: if h in upstream.headers: ...`:
keeps exactly the whitelisted names present upstream, in whitelist order. -/
def copyHeaders (names : List String) (up : List (String × String)) :
    List (String × String) :=
  names.filterMap (fun h => (headerGet up h).map (fun v => (h, v)))

/-- Outcome of a proxy view as seen by the client. -/
inductive ViewResult where
  | forbidden (msg : String)
  | notFound
  | streamed (status : ℕ) (contentType : String) (headers : List (String × String))
  | failure (msg : String)
deriving DecidableEq, Repr

/-- The four-header relay whitelist (views.py:103, 234 and music/views.py:123). -/
def fullWhitelist : List String :=
  ["Content-Length", "Content-Range", "Accept-Ranges", "Cache-Control"]

/-- `hls_segment` (videos/views.py:207-237).  `videoFound` is the catalog
lookup plus `_is_video_allowed`; `u` is the `u` query parameter (`none` when
absent); `range` is the incoming `Range` header.  `if not segment_url`
treats both `None` and `""` as missing. -/
def hls_segment (videoFound : Bool) (u : Option String) (range : Option String)
    (http : UpReq → UpResp) : ViewResult × List UpReq :=
  if !videoFound then (.forbidden "Not allowed", [])
  else
    let segmentUrl := u.getD ""
    if segmentUrl = "" then (.forbidden "Missing segment URL", [])
    else
      let req : UpReq := { url := segmentUrl, range := range }
      let up := http req
      (.streamed up.status ((headerGet up.headers "Content-Type").getD "video/MP2T")
        (copyHeaders fullWhitelist up.headers), [req])

/-- `hls_key` (videos/views.py:321-348).  The source passes no headers to
`requests.get`, so the upstream request carries no `Range`; only
`Content-Length` and `Cache-Control` are copied back. -/
def hls_key (videoFound : Bool) (u : Option String) (_range : Option String)
    (http : UpReq → UpResp) : ViewResult × List UpReq :=
  if !videoFound then (.forbidden "Not allowed", [])
  else
    let keyUrl := u.getD ""
    if keyUrl = "" then (.forbidden "Missing key URL", [])
    else
      let req : UpReq := { url := keyUrl, range := none }
      let up := http req
      (.streamed up.status ((headerGet up.headers "Content-Type").getD "application/octet-stream")
        (copyHeaders ["Content-Length", "Cache-Control"] up.headers), [req])

/-- `progressive_file` (videos/views.py:73-106), parameterized by the
descriptor `resolve_stream_manifest` returned.  A dict without the
`stream_url` key, or one holding `None`, would make `requests.get` raise;
that is the `failure` branch. -/
def progressive_file (videoFound : Bool) (info : StreamDescriptor)
    (range : Option String) (http : UpReq → UpResp) : ViewResult × List UpReq :=
  if !videoFound then (.forbidden "Not allowed", [])
  else if info.stream_type ≠ "progressive" then (.forbidden "Not a progressive stream", [])
  else
    match info.stream_url with
    | some (some fileUrl) =>
      let req : UpReq := { url := fileUrl, range := range }
      let up := http req
      (.streamed up.status ((headerGet up.headers "Content-Type").getD "video/mp4")
        (copyHeaders fullWhitelist up.headers), [req])
    | _ => (.failure "requests.get on a missing stream_url", [])

/-- `music_stream` (music/views.py:99-126), parameterized by the result of
`resolve_audio_stream` (an `Except`: the `RuntimeError` it raises
propagates out of the view).  The source passes no headers to
`requests.get` and builds `StreamingHttpResponse` without a status
argument, so the client status is always the Django default 200. -/
def music_stream (trackFound : Bool) (audio : Except String AudioRes)
    (_range : Option String) (http : UpReq → UpResp) : ViewResult × List UpReq :=
  if !trackFound then (.notFound, [])
  else
    match audio with
    | .error e => (.failure e, [])
    | .ok a =>
      match a.url with
      | some streamUrl =>
        let req : UpReq := { url := streamUrl, range := none }
        let up := http req
        (.streamed 200 ((headerGet up.headers "Content-Type").getD "audio/mpeg")
          (copyHeaders fullWhitelist up.headers), [req])
      | none => (.failure "requests.get on a missing stream url", [])

/-! ## Batch synchronization jobs (`services.py` lines 180-232, 661-696)

The jobs iterate database rows, call `resolve_video_info` per item and
accumulate a result dict.  `resolve_video_info` (network + cache) is an
explicit oracle `resolve : yt_video_id → Except String Info`; its `error`
case is the `RuntimeError` the per-item `except` clause catches.  Durations
are embedded as integers, under which the float/str normalization branches
of the source are the identity. -/

/-- The counters and error list a batch job accumulates
(`tracks_processed`/`videos_processed`, `…_updated`, `errors`). -/
structure SyncState where
  processed : ℕ := 0
  updated : ℕ := 0
  errors : List String := []
deriving DecidableEq, Repr

/-- A `MusicTrack` row, restricted to the fields the job touches. -/
structure MusicTrackR where
  yt_video_id : String
  title : String := ""
  artist : String := ""
  album : String := ""
  duration : Option Int := none
deriving DecidableEq, Repr

/-- The per-track update body of `update_music_tracks_metadata`
(services.py:201-227): build `metadata_updates`, set each field whose value
is not `None` and differs, report whether anything changed. -/
def updateTrack (t : MusicTrackR) (info : Info) : MusicTrackR × Bool :=
  let titleV := pyOrS info.title t.title
  let artistV := pyOrS info.artist (pyOrS info.uploader t.artist)
  let albumV := pyOrS info.album t.album
  let durV : Option Int :=
    match info.duration with
    | some d => some d
    | none => t.duration
  let changed : Bool :=
    (titleV != t.title) || (artistV != t.artist) || (albumV != t.album) ||
      (match durV with
       | some d => t.duration != some d
       | none => false)
  ({ t with
      title := titleV
      artist := artistV
      album := albumV
      duration := durV },
   changed)

/-- Per-item delta of a batch job: increments to the processed and updated
counters, appended error entries, and the row as left in the database. -/
def stepOf (delta : τ → ℕ × ℕ × List String × τ)
    (st : SyncState × List τ) (t : τ) : SyncState × List τ :=
  let d := delta t
  ({ processed := st.1.processed + d.1
     updated := st.1.updated + d.2.1
     errors := st.1.errors ++ d.2.2.1 },
   st.2 ++ [d.2.2.2])

/-- One iteration of the `update_music_tracks_metadata` loop
(services.py:198-230): on a caught exception append
`f"\x7btrack.yt_video_id\x7d: \x7bexc\x7d"` and touch no counter; otherwise count the
track as processed and as updated when a field changed. -/
def musicDelta (resolve : String → Except String Info) (t : MusicTrackR) :
    ℕ × ℕ × List String × MusicTrackR :=
  match resolve t.yt_video_id with
  | .error e => (0, 0, [t.yt_video_id ++ ": " ++ e], t)
  | .ok info =>
    let r := updateTrack t info
    (1, if r.2 then 1 else 0, [], r.1)

/-- `update_music_tracks_metadata` (services.py:180-232), returning the
result counters and the rows after the run. -/
def update_music_tracks_metadata (resolve : String → Except String Info)
    (tracks : List MusicTrackR) : SyncState × List MusicTrackR :=
  tracks.foldl (stepOf (musicDelta resolve)) ({}, [])

/-- A calendar date, the embedding of `datetime.date`. -/
structure Date where
  year : ℕ
  month : ℕ
  day : ℕ
deriving DecidableEq, Repr

/-- Gregorian leap year. -/
def isLeap (y : ℕ) : Bool := (y % 4 == 0 && y % 100 != 0) || y % 400 == 0

/-- Days in a month. -/
def daysInMonth (y m : ℕ) : ℕ :=
  if m = 2 then (if isLeap y then 29 else 28)
  else if m = 4 ∨ m = 6 ∨ m = 9 ∨ m = 11 then 30 else 31

/-- Modelled stdlib behavior: `datetime.strptime(s, "%Y%m%d").date()` with
`ValueError` as `none`, for the canonical eight-digit form (degenerate
shorter matches of `%m`/`%d` are not modelled). -/
def parseYmd8 (s : String) : Option Date :=
  if s.data.length = 8 ∧ s.data.all Char.isDigit then
    let y := digitsToNat (s.data.take 4)
    let m := digitsToNat ((s.data.drop 4).take 2)
    let d := digitsToNat (s.data.drop 6)
    if 1 ≤ y ∧ 1 ≤ m ∧ m ≤ 12 ∧ 1 ≤ d ∧ d ≤ daysInMonth y m then
      some ⟨y, m, d⟩
    else none
  else none

/-- The dict `metadata_from_info` returns (services.py:753-763): string
fields defaulted with `or ""`, optional duration and parsed upload date. -/
structure VideoMeta where
  title : String
  description : String
  duration : Option Int
  upload_date : Option Date
  thumbnail : String
  channel_title : String
  channel_external_id : String
  uploader : String
  uploader_id : String
deriving DecidableEq, Repr

/-- `metadata_from_info` (services.py:723-763). -/
def metadata_from_info (data : Info) : VideoMeta :=
  { title := data.title.getD ""
    description := data.description.getD ""
    duration := data.duration
    upload_date :=
      match data.upload_date with
      | some s => if s ≠ "" then parseYmd8 s else none
      | none => none
    thumbnail := data.thumbnail.getD ""
    channel_title := data.channel.getD ""
    channel_external_id := pyOrS data.channel_id (data.channel_url.getD "")
    uploader := data.uploader.getD ""
    uploader_id := data.uploader_id.getD "" }

/-- A `Video` row, restricted to the fields `update_videos_metadata`
touches. -/
structure VideoR where
  yt_video_id : String
  title : String := ""
  description : String := ""
  duration : Option Int := none
  upload_date : Option Date := none
  thumbnail : String := ""
  channel_title : String := ""
  channel_external_id : String := ""
  uploader : String := ""
  uploader_id : String := ""
deriving DecidableEq, Repr

/-- The per-video update body of `update_videos_metadata`
(services.py:682-688): for each metadata field whose value is not `None`,
set it when it differs from the stored one. -/
def updateVideo (v : VideoR) (meta : VideoMeta) : VideoR × Bool :=
  let durV : Option Int :=
    match meta.duration with
    | some d => some d
    | none => v.duration
  let dateV : Option Date :=
    match meta.upload_date with
    | some d => some d
    | none => v.upload_date
  let changed : Bool :=
    (meta.title != v.title) || (meta.description != v.description) ||
      (meta.thumbnail != v.thumbnail) || (meta.channel_title != v.channel_title) ||
      (meta.channel_external_id != v.channel_external_id) ||
      (meta.uploader != v.uploader) || (meta.uploader_id != v.uploader_id) ||
      (match meta.duration with
       | some d => v.duration != some d
       | none => false) ||
      (match meta.upload_date with
       | some d => v.upload_date != some d
       | none => false)
  ({ v with
      title := meta.title
      description := meta.description
      duration := durV
      upload_date := dateV
      thumbnail := meta.thumbnail
      channel_title := meta.channel_title
      channel_external_id := meta.channel_external_id
      uploader := meta.uploader
      uploader_id := meta.uploader_id },
   changed)

/-- One iteration of the `update_videos_metadata` loop (services.py:678-694):
on a caught exception append `f"Video \x7bvideo.yt_video_id\x7d: \x7bstr(e)\x7d"`. -/
def videoDelta (resolve : String → Except String Info) (v : VideoR) :
    ℕ × ℕ × List String × VideoR :=
  match resolve v.yt_video_id with
  | .error e => (0, 0, ["Video " ++ v.yt_video_id ++ ": " ++ e], v)
  | .ok info =>
    let r := updateVideo v (metadata_from_info info)
    (1, if r.2 then 1 else 0, [], r.1)

/-- `update_videos_metadata` (services.py:661-696). -/
def update_videos_metadata (resolve : String → Except String Info)
    (videos : List VideoR) : SyncState × List VideoR :=
  videos.foldl (stepOf (videoDelta resolve)) ({}, [])

/-! ## Concrete fixtures used by witnesses and counterexamples -/

/-- The spec example format with only `acodec = "none"`. -/
def audioDemoNone : Format := { acodec := some "none" }

/-- The spec example webm audio format (higher raw bitrate). -/
def audioDemoWebm : Format :=
  { vcodec := some "none", acodec := some "aac", ext := some "webm",
    tbr := some 90, url := some "a" }

/-- The spec example m4a audio format (preferred container). -/
def audioDemoM4a : Format :=
  { vcodec := some "none", acodec := some "aac", ext := some "m4a",
    tbr := some 80, url := some "b" }

/-- An HLS candidate format with no progressive candidate. -/
def hlsDemoFormat : Format :=
  { protocol := some "m3u8", url := some "http://h/a.m3u8", tbr := some 5 }

/-- A DASH candidate format. -/
def dashDemoFormat : Format := { manifest_url := some "http://h/d.mpd" }

/-- An upstream oracle answering 206 with a `Content-Range`. -/
def rangeDemoHttp : UpReq → UpResp := fun _ =>
  { status := 206
    headers := [("Content-Range", "bytes 100-199/500"), ("Content-Length", "100")] }

/-- A trivial upstream oracle. -/
def trivialHttp : UpReq → UpResp := fun _ => {}

/-- A master playlist plus one variant playlist, as a fetch oracle. -/
def masterDemoFetch : String → String := fun u =>
  if u = "http://h/m.m3u8" then "#EXT-X-STREAM-INF:BANDWIDTH=800000\nv1.m3u8"
  else if u = "http://h/v1.m3u8" then "#EXTM3U\ns1.ts"
  else ""

/-- A cache holding one entry for key `k` that expires at time 1. -/
def expiredDemoCache : Cache String := _cache_set ([] : Cache String) 0 "k" "v" 1

/-- A resolver oracle failing exactly on item `t2`. -/
def demoResolve : String → Except String Info := fun vid =>
  if vid = "t2" then .error "boom" else .ok { title := some "T" }

/-- First of three demo tracks. -/
def demoTrack1 : MusicTrackR := { yt_video_id := "t1", title := "a" }

/-- Second demo track: the one the failing resolver rejects. -/
def demoTrack2 : MusicTrackR := { yt_video_id := "t2", title := "b" }

/-- Third demo track. -/
def demoTrack3 : MusicTrackR := { yt_video_id := "t3", title := "c" }

/-- Three tracks, of which the second hits the failing resolver. -/
def demoTracks : List MusicTrackR := [demoTrack1, demoTrack2, demoTrack3]

/-- An info dict with a single progressive format. -/
def progDemoInfo : Info :=
  { formats := [{ vcodec := some "avc1", acodec := some "mp4a",
                  protocol := some "https", url := some "http://h/f.mp4",
                  ext := some "mp4", tbr := some 100 }] }

/-! ## Helper lemmas -/

theorem headD_of_head? {l : List α} {b : α} (d : α) (h : l.head? = some b) :
    l.headD d = b := by
  cases l with
  | nil => simp at h
  | cons x xs => simp at h; simp [h]

theorem foldl_insertDescBy_head (le : α → α → Bool) :
    ∀ (xs : List α) (a : α) (as : List α),
      (xs.foldl (fun acc x => insertDescBy le x acc) (a :: as)).head? =
        some (firstMaxBy le a xs) := by
  intro xs
  induction xs with
  | nil => intro a as; simp [firstMaxBy]
  | cons y ys ih =>
    intro a as
    show (ys.foldl _ (insertDescBy le y (a :: as))).head? = _
    by_cases h : le y a
    · rw [show insertDescBy le y (a :: as) = a :: insertDescBy le y as by
        simp [insertDescBy, h]]
      rw [ih a (insertDescBy le y as)]
      simp [firstMaxBy, h]
    · rw [show insertDescBy le y (a :: as) = y :: a :: as by
        simp [insertDescBy, h]]
      rw [ih y (a :: as)]
      simp [firstMaxBy, h]

theorem sortDescBy_head (le : α → α → Bool) (x : α) (xs : List α) :
    (sortDescBy le (x :: xs)).head? = some (firstMaxBy le x xs) := by
  show (xs.foldl _ (insertDescBy le x [])).head? = _
  exact foldl_insertDescBy_head le xs x []

theorem rewriteLines_eq_map (videoId base : String) :
    ∀ ls : List String, rewriteLines videoId base ls = ls.map (rewriteLine videoId base) := by
  intro ls
  induction ls with
  | nil => rfl
  | cons l ls ih => simp [rewriteLines, ih]

theorem pyStartsWith_hash_of_key {s : String}
    (h : pyStartsWith s "#EXT-X-KEY" = true) : pyStartsWith s "#" = true := by
  unfold pyStartsWith at h ⊢
  cases hs : s.data with
  | nil => rw [hs] at h; simp [swB] at h
  | cons c cs =>
    rw [hs] at h
    simp only [swB, Bool.and_eq_true] at h ⊢
    simp [show ("#" : String).data = ['#'] from rfl, swB, h.1]

theorem findVariant_of_no_uri (base : String) :
    ∀ ls, firstUriLine ls = none → findVariant base ls = none := by
  intro ls
  induction ls with
  | nil => intro _; rfl
  | cons l rest ih =>
    intro h
    unfold firstUriLine at h
    by_cases hb : (pyStrip l = "" || pyStartsWith (pyStrip l) "#") = true
    · rw [if_pos hb] at h
      unfold findVariant
      by_cases hinf : pyStartsWith (pyStrip l) "#EXT-X-STREAM-INF" = true
      · rw [if_pos hinf, h]
        exact ih h
      · rw [if_neg hinf]
        exact ih h
    · rw [if_neg hb] at h
      exact absurd h (by simp)

theorem stepOf_foldl_shift (delta : τ → ℕ × ℕ × List String × τ) :
    ∀ (ts : List τ) (st : SyncState × List τ),
      (ts.foldl (stepOf delta) st).1.processed =
          st.1.processed + (ts.foldl (stepOf delta) ({}, [])).1.processed ∧
      (ts.foldl (stepOf delta) st).1.updated =
          st.1.updated + (ts.foldl (stepOf delta) ({}, [])).1.updated ∧
      (ts.foldl (stepOf delta) st).1.errors =
          st.1.errors ++ (ts.foldl (stepOf delta) ({}, [])).1.errors := by
  intro ts
  induction ts with
  | nil => intro st; simp
  | cons t ts ih =>
    intro st
    have h1 := ih (stepOf delta st t)
    have h2 := ih (stepOf delta ({}, []) t)
    simp only [List.foldl_cons]
    refine ⟨?_, ?_, ?_⟩
    · rw [h1.1, h2.1]; simp [stepOf]; omega
    · rw [h1.2.1, h2.2.1]; simp [stepOf]; omega
    · rw [h1.2.2, h2.2.2]; simp [stepOf]

/-! ## Claim theorems -/

/-- C7: immediately after `_cache_set k v ttl` at time `t0`, `_cache_get k`
at time `t` returns the stored value exactly while `t` is strictly before
the stored expiry `t0 + ttl`, and a miss (`none`) once `t` is at or past
it. -/
theorem C7_cache_ttl_window (α : Type) (c : Cache α) (t0 : ℤ) (k : String)
    (v : α) (ttl t : ℤ) :
    _cache_get (_cache_set c t0 k v ttl) t k =
      if t < t0 + ttl then some v else none := by
  unfold _cache_get _cache_set cacheLookup
  simp only [List.find?]
  simp [gt_iff_lt]

/-- C8 counterexample: reading key `k` of a cache whose entry for `k`
expired at time 1, at time 2, is a miss, yet the expired entry is still
present in the cache mapping afterwards — `_cache_get` does not purge. -/
theorem C8_counterexample_no_purge :
    (_cache_get_state expiredDemoCache 2 "k").1 = none ∧
    ¬ cacheLookup (_cache_get_state expiredDemoCache 2 "k").2 "k" = none := by
  constructor
  · decide
  · decide

/-- C8 (amended): a read of an expired entry is treated as a miss, but the
entry is not purged: `_cache_get` leaves the cache mapping unchanged, and
expired entries disappear only when overwritten by a later `_cache_set`. -/
theorem C8_expired_read_is_miss_without_purge (α : Type) (c : Cache α)
    (now : ℤ) (k : String) :
    (_cache_get_state c now k).2 = c ∧
      (∀ e v, cacheLookup c k = some (e, v) → e ≤ now →
        (_cache_get_state c now k).1 = none) := by
  refine ⟨rfl, ?_⟩
  intro e v hlook hle
  show _cache_get c now k = none
  unfold _cache_get
  rw [hlook]
  simp [not_lt.mpr hle]

/-- C8 witness: the amended theorem applied to the concrete expired
cache. -/
theorem C8_expired_read_witness :
    (_cache_get_state expiredDemoCache 2 "k").1 = none :=
  (C8_expired_read_is_miss_without_purge String expiredDemoCache 2 "k").2
    1 "v" (by decide) (by decide)

/-- C10: on the HLS segment and key endpoints, for a catalog video, a
missing or empty `u` query parameter yields the Forbidden response and no
upstream request is issued. -/
theorem C10_missing_u_forbidden :
    (∀ (u range : Option String) (http : UpReq → UpResp),
        u = none ∨ u = some "" →
        hls_segment true u range http = (.forbidden "Missing segment URL", [])) ∧
    (∀ (u range : Option String) (http : UpReq → UpResp),
        u = none ∨ u = some "" →
        hls_key true u range http = (.forbidden "Missing key URL", [])) := by
  constructor
  · intro u range http h
    rcases h with h | h <;> subst h <;> simp [hls_segment]
  · intro u range http h
    rcases h with h | h <;> subst h <;> simp [hls_key]

/-- C10 witness: both endpoints at `u = none` against a concrete oracle. -/
theorem C10_missing_u_witness :
    hls_segment true none none trivialHttp = (.forbidden "Missing segment URL", []) ∧
    hls_key true none none trivialHttp = (.forbidden "Missing key URL", []) :=
  ⟨C10_missing_u_forbidden.1 none none trivialHttp (Or.inl rfl),
   C10_missing_u_forbidden.2 none none trivialHttp (Or.inl rfl)⟩

/-- C3 counterexample: on the HLS key endpoint, with an incoming
`Range: bytes=100-199` and an upstream answering 206 with a
`Content-Range`, the upstream request is issued without any `Range` header
and the relayed response drops `Content-Range` — refuting the claim that
every endpoint of the proxy family forwards `Range` verbatim and copies the
four-header whitelist. -/
theorem C3_counterexample_key_endpoint :
    (hls_key true (some "http://up/k.bin") (some "bytes=100-199") rangeDemoHttp).2 =
        [{ url := "http://up/k.bin", range := none }] ∧
    (hls_key true (some "http://up/k.bin") (some "bytes=100-199") rangeDemoHttp).1 =
        .streamed 206 "application/octet-stream" [("Content-Length", "100")] ∧
    ¬ (∃ r ∈ (hls_key true (some "http://up/k.bin") (some "bytes=100-199") rangeDemoHttp).2,
        r.range = some "bytes=100-199") ∧
    ¬ (∃ hs, (hls_key true (some "http://up/k.bin") (some "bytes=100-199") rangeDemoHttp).1 =
          .streamed 206 "application/octet-stream" hs ∧
        headerGet hs "Content-Range" = some "bytes 100-199/500") := by
  refine ⟨by decide, by decide, by decide, ?_⟩
  rintro ⟨hs, h1, h2⟩
  have : hs = [("Content-Length", "100")] := by
    have h3 : (hls_key true (some "http://up/k.bin") (some "bytes=100-199") rangeDemoHttp).1 =
        .streamed 206 "application/octet-stream" [("Content-Length", "100")] := by decide
    rw [h3] at h1
    exact (ViewResult.streamed.injEq _ _ _ _ _ _).mp h1.symm |>.2.2
  subst this
  simp [headerGet] at h2

/-- C3 (amended): the HLS segment and progressive-file endpoints forward an
incoming `Range` verbatim, relay the upstream status and copy exactly the
whitelisted headers `Content-Length`, `Content-Range`, `Accept-Ranges`,
`Cache-Control` present upstream, defaulting `Content-Type` per media kind;
the HLS key endpoint issues its upstream GET without forwarding `Range`,
relays the status, and copies only `Content-Length` and `Cache-Control`;
the audio-stream endpoint issues its upstream GET without forwarding
`Range`, always answers with status 200, and copies the four whitelisted
headers. -/
theorem C3_amended_proxy_contracts :
    (∀ (s : String) (range : Option String) (http : UpReq → UpResp), s ≠ "" →
        hls_segment true (some s) range http =
          (.streamed (http { url := s, range := range }).status
            ((headerGet (http { url := s, range := range }).headers "Content-Type").getD "video/MP2T")
            (copyHeaders fullWhitelist (http { url := s, range := range }).headers),
           [{ url := s, range := range }])) ∧
    (∀ (s : String) (range : Option String) (http : UpReq → UpResp), s ≠ "" →
        hls_key true (some s) range http =
          (.streamed (http { url := s, range := none }).status
            ((headerGet (http { url := s, range := none }).headers "Content-Type").getD "application/octet-stream")
            (copyHeaders ["Content-Length", "Cache-Control"] (http { url := s, range := none }).headers),
           [{ url := s, range := none }])) ∧
    (∀ (info : StreamDescriptor) (fileUrl : String) (range : Option String)
        (http : UpReq → UpResp),
        info.stream_type = "progressive" → info.stream_url = some (some fileUrl) →
        progressive_file true info range http =
          (.streamed (http { url := fileUrl, range := range }).status
            ((headerGet (http { url := fileUrl, range := range }).headers "Content-Type").getD "video/mp4")
            (copyHeaders fullWhitelist (http { url := fileUrl, range := range }).headers),
           [{ url := fileUrl, range := range }])) ∧
    (∀ (a : AudioRes) (streamUrl : String) (range : Option String)
        (http : UpReq → UpResp),
        a.url = some streamUrl →
        music_stream true (.ok a) range http =
          (.streamed 200
            ((headerGet (http { url := streamUrl, range := none }).headers "Content-Type").getD "audio/mpeg")
            (copyHeaders fullWhitelist (http { url := streamUrl, range := none }).headers),
           [{ url := streamUrl, range := none }])) := by
  refine ⟨?_, ?_, ?_, ?_⟩
  · intro s range http hs
    simp [hls_segment, hs]
  · intro s range http hs
    simp [hls_key, hs]
  · intro info fileUrl range http ht hu
    simp [progressive_file, ht, hu]
  · intro a streamUrl range http hu
    simp [music_stream, hu]

/-- C3 witness: the amended theorem applied to the segment endpoint at a
concrete URL, range and oracle. -/
theorem C3_amended_witness :
    hls_segment true (some "http://up/s1.ts") (some "bytes=100-199") rangeDemoHttp =
      (.streamed 206 "video/MP2T"
        [("Content-Length", "100"), ("Content-Range", "bytes 100-199/500")],
       [{ url := "http://up/s1.ts", range := some "bytes=100-199" }]) := by
  rw [C3_amended_proxy_contracts.1 "http://up/s1.ts" (some "bytes=100-199")
    rangeDemoHttp (by decide)]
  decide

/-- C9: every descriptor `resolve_stream_manifest` returns populates
exactly one of the `stream_url` / `manifest_url` keys, determined by
`stream_type`: `stream_url` is present iff the type is `progressive`, and
`manifest_url` is present iff the type is `hls` or `dash`. -/
theorem C9_descriptor_exclusivity (videoId : String) (info : Info)
    (desc : StreamDescriptor)
    (h : resolve_stream_manifest videoId info = .ok desc) :
    (desc.stream_url.isSome ↔ desc.stream_type = "progressive") ∧
    (desc.manifest_url.isSome ↔ (desc.stream_type = "hls" ∨ desc.stream_type = "dash")) ∧
    ¬ (desc.stream_url.isSome ∧ desc.manifest_url.isSome) := by
  unfold resolve_stream_manifest at h
  cases hsel : select_manifest info with
  | error e => rw [hsel] at h; simp [Bind.bind, Except.bind] at h
  | ok sel =>
    rw [hsel] at h
    simp only [Bind.bind, Except.bind] at h
    by_cases h1 : sel.stype = "progressive"
    · rw [if_pos h1] at h
      simp only [Pure.pure, Except.pure, Except.ok.injEq] at h
      subst h
      refine ⟨by simp, by simp, by simp⟩
    · rw [if_neg h1] at h
      by_cases h2 : sel.stype = "hls"
      · rw [if_pos h2] at h
        simp only [Pure.pure, Except.pure, Except.ok.injEq] at h
        subst h
        refine ⟨by simp, by simp, by simp⟩
      · rw [if_neg h2] at h
        simp only [Pure.pure, Except.pure, Except.ok.injEq] at h
        subst h
        refine ⟨by simp, by simp, by simp⟩

/-- C9 witness: the invariant at a concrete info with one progressive
format. -/
theorem C9_descriptor_witness :
    ((resolve_stream_manifest "v" progDemoInfo).toOption.map
        (fun d => d.stream_url.isSome && !d.manifest_url.isSome &&
          (d.stream_type == "progressive"))) = some true := by
  have h : resolve_stream_manifest "v" progDemoInfo =
      .ok { video_id := "v", stream_type := "progressive",
            stream_url := some (some "http://h/f.mp4"), ext := some (some "mp4") } := by
    rfl
  have h2 := C9_descriptor_exclusivity "v" progDemoInfo _ h
  rw [h]
  decide

/-- C5: audio-only selection keeps exactly the formats with video codec
absent or `"none"`, a present non-`"none"` audio codec and a URL; it picks
the first candidate attaining the maximal `(preferred-container, bitrate)`
score (Python stable reverse sort), returns `none` without candidates, and
on the spec example prefers the m4a entry over the higher-bitrate webm
entry. -/
theorem C5_audio_selection :
    (∀ formats : List Format,
        select_best_audio formats = none ↔ formats.filter isAudioOnly = []) ∧
    (∀ f : Format, isAudioOnly f = true ↔
        ((f.vcodec = none ∨ f.vcodec = some "none") ∧
         (∃ a, f.acodec = some a ∧ a ≠ "" ∧ a ≠ "none") ∧
         (∃ u, f.url = some u ∧ u ≠ ""))) ∧
    (∀ (formats : List Format) (x : Format) (xs : List Format),
        formats.filter isAudioOnly = x :: xs →
        select_best_audio formats =
          some { url := (firstMaxBy audioLe x xs).url,
                 ext := (firstMaxBy audioLe x xs).ext,
                 acodec := (firstMaxBy audioLe x xs).acodec }) ∧
    select_best_audio [audioDemoNone, audioDemoWebm, audioDemoM4a] =
      some { url := some "b", ext := some "m4a", acodec := some "aac" } := by
  refine ⟨?_, ?_, ?_, by decide⟩
  · intro formats
    unfold select_best_audio
    cases hf : formats.filter isAudioOnly with
    | nil => simp [hf]
    | cons x xs => simp [hf, sortDescBy_head]
  · intro f
    obtain ⟨vc, ac, pr, url, ex, mu, tb, ab⟩ := f
    cases vc <;> cases ac <;> cases url <;>
      (simp [isAudioOnly, truthyS]; all_goals tauto)
  · intro formats x xs hf
    unfold select_best_audio
    simp [hf, sortDescBy_head]

/-- C2: tiered manifest selection tries progressive first; with no format
satisfying both codecs the progressive selector returns `none` and the
tiers fall back to HLS (highest bitrate, first on ties) then DASH (first
candidate), and with all tiers empty it fails; in particular with HLS and
DASH candidates but no progressive one, HLS wins. -/
theorem C2_tiered_manifest_selection :
    (∀ (data : Info) (p : SelResult),
        _select_progressive data.formats = some p →
        select_manifest data = .ok p) ∧
    (∀ formats : List Format,
        (∀ f ∈ formats,
          ¬(truthyS f.vcodec = true ∧ f.vcodec ≠ some "none" ∧
            truthyS f.acodec = true ∧ f.acodec ≠ some "none")) →
        _select_progressive formats = none) ∧
    (∀ (data : Info) (x : Format) (xs : List Format),
        _select_progressive data.formats = none →
        data.formats.filter isHlsFormat = x :: xs →
        select_manifest data =
          .ok { stype := "hls", manifest_url := (firstMaxBy hlsLe x xs).url }) ∧
    (∀ (data : Info) (x : Format) (xs : List Format),
        _select_progressive data.formats = none →
        data.formats.filter isHlsFormat = [] →
        data.formats.filter isDashFormat = x :: xs →
        select_manifest data =
          .ok { stype := "dash",
                manifest_url :=
                  if truthyS x.manifest_url then x.manifest_url else x.url }) ∧
    (∀ data : Info,
        _select_progressive data.formats = none →
        data.formats.filter isHlsFormat = [] →
        data.formats.filter isDashFormat = [] →
        select_manifest data =
          .error "Nessun manifest disponibile (progressive/HLS/DASH)") ∧
    select_manifest { formats := [hlsDemoFormat, dashDemoFormat] } =
      .ok { stype := "hls", manifest_url := some "http://h/a.m3u8" } := by
  refine ⟨?_, ?_, ?_, ?_, ?_, by rfl⟩
  · intro data p hp
    simp [select_manifest, hp]
  · intro formats hcod
    unfold _select_progressive
    have hnil : formats.filter isProgressive = [] := by
      rw [List.filter_eq_nil_iff]
      intro f hf hp
      apply hcod f hf
      unfold isProgressive at hp
      simp only [Bool.and_eq_true, bne_iff_ne] at hp
      exact ⟨hp.1.1.1.1.1, hp.1.1.1.1.2, hp.1.1.1.2, hp.1.1.2⟩
    simp [hnil]
  · intro data x xs hprog hf
    have hd : ((sortDescBy hlsLe (x :: xs)).head?.getD ({} : Format)) =
        firstMaxBy hlsLe x xs := by
      rw [sortDescBy_head]
      rfl
    simp [select_manifest, hprog, hf, hd]
  · intro data x xs hprog hf hd
    simp [select_manifest, hprog, hf, hd]
  · intro data hprog hf hd
    simp [select_manifest, hprog, hf, hd]

/-- C6: in the batch jobs, a per-item resolution failure is caught,
recorded as exactly one error entry carrying the item id and message, and
does not abort the remaining items: over `l1 ++ [t] ++ l2` with `t`
failing, the processed count is the sum over `l1` and `l2` and the error
list gains exactly the one entry for `t`, in position; on the concrete
three-track run with the second track failing, processed is 2 and the
error list is exactly the entry for track 2. -/
theorem C6_batch_isolation :
    (∀ (resolve : String → Except String Info) (l1 l2 : List MusicTrackR)
        (t : MusicTrackR) (e : String),
        resolve t.yt_video_id = .error e →
        (update_music_tracks_metadata resolve (l1 ++ t :: l2)).1.processed =
            (update_music_tracks_metadata resolve l1).1.processed +
              (update_music_tracks_metadata resolve l2).1.processed ∧
        (update_music_tracks_metadata resolve (l1 ++ t :: l2)).1.errors =
            (update_music_tracks_metadata resolve l1).1.errors ++
              (t.yt_video_id ++ ": " ++ e) ::
                (update_music_tracks_metadata resolve l2).1.errors) ∧
    (∀ (resolve : String → Except String Info) (l1 l2 : List VideoR)
        (v : VideoR) (e : String),
        resolve v.yt_video_id = .error e →
        (update_videos_metadata resolve (l1 ++ v :: l2)).1.processed =
            (update_videos_metadata resolve l1).1.processed +
              (update_videos_metadata resolve l2).1.processed ∧
        (update_videos_metadata resolve (l1 ++ v :: l2)).1.errors =
            (update_videos_metadata resolve l1).1.errors ++
              ("Video " ++ v.yt_video_id ++ ": " ++ e) ::
                (update_videos_metadata resolve l2).1.errors) ∧
    ((update_music_tracks_metadata demoResolve demoTracks).1.processed = 2 ∧
     (update_music_tracks_metadata demoResolve demoTracks).1.errors = ["t2: boom"]) := by
  refine ⟨?_, ?_, by decide, by decide⟩
  · intro resolve l1 l2 t e he
    unfold update_music_tracks_metadata
    rw [List.foldl_append, List.foldl_cons]
    have hs := stepOf_foldl_shift (musicDelta resolve) l2
      (stepOf (musicDelta resolve)
        (List.foldl (stepOf (musicDelta resolve)) ({}, []) l1) t)
    constructor
    · rw [hs.1]
      have hp : (stepOf (musicDelta resolve)
          (List.foldl (stepOf (musicDelta resolve)) ({}, []) l1) t).1.processed =
          (List.foldl (stepOf (musicDelta resolve)) ({}, []) l1).1.processed := by
        simp [stepOf, musicDelta, he]
      rw [hp]
    · rw [hs.2.2]
      have hp : (stepOf (musicDelta resolve)
          (List.foldl (stepOf (musicDelta resolve)) ({}, []) l1) t).1.errors =
          (List.foldl (stepOf (musicDelta resolve)) ({}, []) l1).1.errors ++
            [t.yt_video_id ++ ": " ++ e] := by
        simp [stepOf, musicDelta, he]
      rw [hp]
      simp
  · intro resolve l1 l2 v e he
    unfold update_videos_metadata
    rw [List.foldl_append, List.foldl_cons]
    have hs := stepOf_foldl_shift (videoDelta resolve) l2
      (stepOf (videoDelta resolve)
        (List.foldl (stepOf (videoDelta resolve)) ({}, []) l1) v)
    constructor
    · rw [hs.1]
      have hp : (stepOf (videoDelta resolve)
          (List.foldl (stepOf (videoDelta resolve)) ({}, []) l1) v).1.processed =
          (List.foldl (stepOf (videoDelta resolve)) ({}, []) l1).1.processed := by
        simp [stepOf, videoDelta, he]
      rw [hp]
    · rw [hs.2.2]
      have hp : (stepOf (videoDelta resolve)
          (List.foldl (stepOf (videoDelta resolve)) ({}, []) l1) v).1.errors =
          (List.foldl (stepOf (videoDelta resolve)) ({}, []) l1).1.errors ++
            ["Video " ++ v.yt_video_id ++ ": " ++ e] := by
        simp [stepOf, videoDelta, he]
      rw [hp]
      simp

/-- C6 witness: the isolation equation at the concrete three-track run. -/
theorem C6_batch_isolation_witness :
    (update_music_tracks_metadata demoResolve
        ([demoTrack1] ++ demoTrack2 :: [demoTrack3])).1.processed =
      (update_music_tracks_metadata demoResolve [demoTrack1]).1.processed +
        (update_music_tracks_metadata demoResolve [demoTrack3]).1.processed :=
  (C6_batch_isolation.1 demoResolve [demoTrack1] [demoTrack3] demoTrack2 "boom"
    (by rfl)).1

/-- C1: the manifest line rewrite maps each input line to one output line
in the original order; a stripped `#EXT-X-KEY` line containing `URI=` is
handled by the key rewrite (URI resolved against the base and replaced by
the same-origin key-proxy URL, falling back to passing the line through
when the replacement finds nothing to rewrite); every other line starting
with `#` and every blank line passes through unchanged; every remaining
line is resolved against the base and replaced by the segment-proxy URL
carrying the percent-encoded absolute URL; concretely, `seg1.ts`/`seg2.ts`
against base `http://o/x/` become the two seg-proxy lines in order, and a
quoted key URI becomes the key-proxy URL. -/
theorem C1_manifest_line_rewrite :
    (∀ videoId base text,
        hlsRewrite videoId base text =
          String.intercalate "\n" ((pySplitlines text).map (rewriteLine videoId base))) ∧
    (∀ videoId base line,
        pyStartsWith (pyStrip line) "#EXT-X-KEY" = true →
        substrB "URI=" (pyStrip line) = true →
        rewriteLine videoId base line = rewriteKeyLine videoId base (pyStrip line)) ∧
    (∀ videoId base line,
        (pyStartsWith (pyStrip line) "#" = true ∧
          ¬(pyStartsWith (pyStrip line) "#EXT-X-KEY" = true ∧
            substrB "URI=" (pyStrip line) = true)) ∨ pyStrip line = "" →
        rewriteLine videoId base line = line) ∧
    (∀ videoId base line,
        pyStartsWith (pyStrip line) "#" = false → pyStrip line ≠ "" →
        rewriteLine videoId base line = segProxy videoId (urljoin base (pyStrip line))) ∧
    (hlsRewrite "v" "http://o/x/" "#EXTM3U\nseg1.ts\nseg2.ts" =
      "#EXTM3U\n/stream/v/seg?u=http%3A%2F%2Fo%2Fx%2Fseg1.ts\n/stream/v/seg?u=http%3A%2F%2Fo%2Fx%2Fseg2.ts") ∧
    (hlsRewrite "v" "http://o/x/" "#EXT-X-KEY:METHOD=AES-128,URI=\"k.bin\"\nseg1.ts" =
      "#EXT-X-KEY:METHOD=AES-128,URI=\"/stream/v/key?u=http%3A%2F%2Fo%2Fx%2Fk.bin\"\n/stream/v/seg?u=http%3A%2F%2Fo%2Fx%2Fseg1.ts") := by
  refine ⟨?_, ?_, ?_, ?_, by decide, by decide⟩
  · intro videoId base text
    unfold hlsRewrite
    rw [rewriteLines_eq_map]
  · intro videoId base line h1 h2
    simp [rewriteLine, h1, h2]
  · intro videoId base line h
    rcases h with ⟨hh, hk⟩ | hb
    · have hcond : ¬(pyStartsWith (pyStrip line) "#EXT-X-KEY" &&
          substrB "URI=" (pyStrip line)) = true := by
        simp only [Bool.and_eq_true]
        exact hk
      simp [rewriteLine, hcond, hh]
    · simp [rewriteLine, hb,
        show pyStartsWith "" "#EXT-X-KEY" = false from rfl]
  · intro videoId base line h1 h2
    have hk : pyStartsWith (pyStrip line) "#EXT-X-KEY" = false := by
      cases h : pyStartsWith (pyStrip line) "#EXT-X-KEY" with
      | false => rfl
      | true => exact absurd (pyStartsWith_hash_of_key h) (by simp [h1])
    simp [rewriteLine, hk, h1, h2]

/-- C1 witness: the segment-line case at a concrete line and base. -/
theorem C1_manifest_line_witness :
    rewriteLine "v" "http://o/x/" "seg1.ts" =
      segProxy "v" (urljoin "http://o/x/" (pyStrip "seg1.ts")) :=
  C1_manifest_line_rewrite.2.2.2.1 "v" "http://o/x/" "seg1.ts"
    (by decide) (by decide)

/-- C4: when the fetched text contains a stream-variant directive and the
scan locates a variant URL, `hls_manifest` rewrites the freshly fetched
variant text against the base URL of the variant rather than the
lines; when no variant is locatable, or no directive occurs, it rewrites
the original text; the scan resolves the first non-blank non-directive
line following the first directive against the base of the master; concretely
a master pointing at `v1.m3u8` yields the rewrite of the fetched variant
body, not of the lines of the master itself. -/
theorem C4_master_resolution :
    (∀ (fetch : String → String) (videoId manifestUrl variantUrl : String),
        substrB "#EXT-X-STREAM-INF" (fetch manifestUrl) = true →
        findVariant (dirSlash manifestUrl) (pySplitlines (fetch manifestUrl)) =
          some variantUrl →
        hlsManifestBody fetch videoId manifestUrl =
          hlsRewrite videoId (dirSlash variantUrl) (fetch variantUrl)) ∧
    (∀ (fetch : String → String) (videoId manifestUrl : String),
        substrB "#EXT-X-STREAM-INF" (fetch manifestUrl) = true →
        findVariant (dirSlash manifestUrl) (pySplitlines (fetch manifestUrl)) = none →
        hlsManifestBody fetch videoId manifestUrl =
          hlsRewrite videoId (dirSlash manifestUrl) (fetch manifestUrl)) ∧
    (∀ (fetch : String → String) (videoId manifestUrl : String),
        substrB "#EXT-X-STREAM-INF" (fetch manifestUrl) = false →
        hlsManifestBody fetch videoId manifestUrl =
          hlsRewrite videoId (dirSlash manifestUrl) (fetch manifestUrl)) ∧
    (∀ (base : String) (pre : List String) (l : String) (post : List String),
        (∀ p ∈ pre, pyStartsWith (pyStrip p) "#EXT-X-STREAM-INF" = false) →
        pyStartsWith (pyStrip l) "#EXT-X-STREAM-INF" = true →
        findVariant base (pre ++ l :: post) =
          (firstUriLine post).map (fun u => urljoin base u)) ∧
    (hlsManifestBody masterDemoFetch "v" "http://h/m.m3u8" =
      "#EXTM3U\n/stream/v/seg?u=http%3A%2F%2Fh%2Fs1.ts") ∧
    (hlsManifestBody masterDemoFetch "v" "http://h/m.m3u8" ≠
      hlsRewrite "v" (dirSlash "http://h/m.m3u8")
        (masterDemoFetch "http://h/m.m3u8")) := by
  refine ⟨?_, ?_, ?_, ?_, by decide, by decide⟩
  · intro fetch videoId manifestUrl variantUrl hsub hvar
    simp [hlsManifestBody, hsub, hvar]
  · intro fetch videoId manifestUrl hsub hvar
    simp [hlsManifestBody, hsub, hvar]
  · intro fetch videoId manifestUrl hsub
    simp [hlsManifestBody, hsub]
  · intro base pre l post hpre hl
    induction pre with
    | nil =>
      rw [List.nil_append]
      unfold findVariant
      rw [if_pos hl]
      cases hu : firstUriLine post with
      | some u => simp
      | none => simp [findVariant_of_no_uri base post hu]
    | cons p pre ih =>
      rw [List.cons_append]
      unfold findVariant
      rw [if_neg (by simp [hpre p (List.mem_cons_self p pre)])]
      exact ih (fun q hq => hpre q (List.mem_cons_of_mem p hq))

/-- C4 witness: the variant-found case at the concrete master fixture. -/
theorem C4_master_resolution_witness :
    hlsManifestBody masterDemoFetch "v" "http://h/m.m3u8" =
      hlsRewrite "v" (dirSlash "http://h/v1.m3u8")
        (masterDemoFetch "http://h/v1.m3u8") :=
  C4_master_resolution.1 masterDemoFetch "v" "http://h/m.m3u8" "http://h/v1.m3u8"
    (by decide) (by decide)

/-- C5 witness: the ranked-selection equation at the three-format spec
example. -/
theorem C5_audio_selection_witness :
    select_best_audio [audioDemoNone, audioDemoWebm, audioDemoM4a] =
      some { url := (firstMaxBy audioLe audioDemoWebm [audioDemoM4a]).url,
             ext := (firstMaxBy audioLe audioDemoWebm [audioDemoM4a]).ext,
             acodec := (firstMaxBy audioLe audioDemoWebm [audioDemoM4a]).acodec } :=
  C5_audio_selection.2.2.1 [audioDemoNone, audioDemoWebm, audioDemoM4a]
    audioDemoWebm [audioDemoM4a] (by decide)

/-- C2 witness: the HLS tier at the concrete HLS-plus-DASH format list. -/
theorem C2_tiered_manifest_witness :
    select_manifest { formats := [hlsDemoFormat, dashDemoFormat] } =
      .ok { stype := "hls", manifest_url := (firstMaxBy hlsLe hlsDemoFormat []).url } :=
  C2_tiered_manifest_selection.2.2.1 { formats := [hlsDemoFormat, dashDemoFormat] }
    hlsDemoFormat [] (by rfl) (by decide)

end Tubetto
